import Mathlib

/-!
# Verification of the GazeTracking backend service

Shallow embedding of `src/python-gaze-service/gaze_service.py`.

Python strings are modelled as `String` (with helper functions on
`List Char` mirroring Python's `str.split`), floats as real numbers,
Python `None` as `Option.none`, and dictionary keys that may be absent
as an outer `Option` layer.  External library calls (base64 decoding,
PIL/OpenCV image handling, the `GazeTracking` estimator) are modelled
by an environment recording their outcome for a given payload.
-/

namespace GazeService

/-- Python's `str.split(sep)` for a one-character separator, on `List Char`:
splits at every occurrence of the separator, keeping empty fields.
`pySplit ',' "a,,b" = ["a", "", "b"]`; on the empty string it yields `[[]]`,
matching Python's `"".split(",") == ['']`. -/
def pySplit (sep : Char) : List Char → List (List Char)
  | [] => [[]]
  | c :: cs =>
    match pySplit sep cs with
    | [] => [[]]
    | t :: ts => if c = sep then [] :: t :: ts else (c :: t) :: ts

/-- The string actually handed to `base64.b64decode` by `process_frame`:
`frame_data.split(',')[1] if ',' in frame_data else frame_data`
(gaze_service.py line 90), on `List Char`.  Python's `[1]` cannot fail here
because the guard guarantees at least one separator, hence at least two
fields; `getD` with an arbitrary default is therefore faithful. -/
def stripDataUri (frame_data : List Char) : List Char :=
  if ',' ∈ frame_data then (pySplit ',' frame_data).getD 1 [] else frame_data

/-- Same operation at the `String` level, as used by `process_frame`. -/
def frameDataToDecode (frame_data : String) : String :=
  ⟨stripDataUri frame_data.data⟩

/-- Input to `calculate_attention_score`: the four dictionary entries the
scorer reads.  The outer `Option` records whether the key is present in the
dictionary at all (`none` = key absent); the inner `Option` is the Python
value, which may itself be `None` (the estimator's accessors return `None`
when no pupil is detected).  Floats are idealised as real numbers. -/
structure GazeInput where
  is_blinking : Option (Option Bool)
  is_center : Option (Option Bool)
  horizontal_ratio : Option (Option ℝ)
  vertical_ratio : Option (Option ℝ)

/-- Truthiness of `gaze_data.get(key, False)` for a boolean-valued key:
an absent key yields the default `False`, a present `None` is falsy, and a
present boolean is its own truth value. -/
def pyTruthy (v : Option (Option Bool)) : Bool :=
  match v with
  | some (some true) => true
  | _ => false

/-- `gaze_data.get(key, 0.5)` for a ratio key: an absent key yields the
float `0.5`; a present value (a float or `None`) is returned unchanged. -/
def ratioOrDefault (v : Option (Option ℝ)) : Option ℝ :=
  v.getD (some 0.5)

/-- Python's `round(x, 2)`, idealised over the reals: round `x` to the
nearest multiple of `1/100` (`round` rounds half upward where Python's
float rounding is half-to-even; no computation in this development ever
lands on such a tie). -/
noncomputable def round2 (x : ℝ) : ℝ :=
  (round (x * 100) : ℤ) / 100

/-- `GazeProcessor.calculate_attention_score` (gaze_service.py lines
127-156), translated clause by clause from the source. -/
noncomputable def calculate_attention_score (gaze_data : GazeInput) : ℝ :=
  if pyTruthy gaze_data.is_blinking then 0.3
  else if pyTruthy gaze_data.is_center then 1.0
  else
    match ratioOrDefault gaze_data.horizontal_ratio,
          ratioOrDefault gaze_data.vertical_ratio with
    | some h_ratio, some v_ratio =>
      let center_distance := Real.sqrt ((h_ratio - 0.5) ^ 2 + (v_ratio - 0.5) ^ 2)
      round2 (max 0.0 (1.0 - center_distance * 2))
    | _, _ => 0.5

/-- The priority-ordered scoring policy exactly as §4.3 of the specification
words it, over a record whose boolean flags are definite and whose ratios
are nullable: blinking wins, then centred gaze, then a null ratio, else the
distance formula `max(0, 1 - 2*d)` rounded to two decimals. -/
noncomputable def attentionPolicySpec (is_blinking is_center : Bool)
    (horizontal_ratio vertical_ratio : Option ℝ) : ℝ :=
  if is_blinking then 0.3
  else if is_center then 1.0
  else
    match horizontal_ratio, vertical_ratio with
    | some h, some v =>
      round2 (max 0.0 (1.0 - 2 * Real.sqrt ((h - 0.5) ^ 2 + (v - 0.5) ^ 2)))
    | _, _ => 0.5

/-- The values read off the estimator's accessors after a `refresh`
(gaze_service.py lines 103-110).  Every accessor may return `None` when no
face or pupil is detected, hence the `Option`s. -/
structure EstimatorReading where
  pupil_left : Option (ℝ × ℝ)
  pupil_right : Option (ℝ × ℝ)
  horizontal_ratio : Option ℝ
  vertical_ratio : Option ℝ
  is_left : Option Bool
  is_right : Option Bool
  is_center : Option Bool
  is_blinking : Option Bool

/-- The external world seen by `process_frame`'s `try` block: `pipeline s`
is the combined outcome of `base64.b64decode`, `Image.open`, `cv2.cvtColor`,
`gaze.refresh` and the accessor reads on the (already prefix-stripped)
payload `s` — either the accessor values, or `Except.error msg` when any of
those calls raises an exception with text `msg`; `time` is the value of
`asyncio.get_event_loop().time()` during this call. -/
structure ExternalEnv where
  pipeline : String → Except String EstimatorReading
  time : ℝ

/-- The dictionary returned by `process_frame`.  The outer `Option` on a
field records whether that key is present in the returned dictionary
(`none` = key absent), matching the two dictionary literals in the source;
`timestamp` and `frame_processed` appear in both and are always present. -/
structure GazeResultDict where
  timestamp : ℝ
  pupil_left : Option (Option (ℝ × ℝ))
  pupil_right : Option (Option (ℝ × ℝ))
  horizontal_ratio : Option (Option ℝ)
  vertical_ratio : Option (Option ℝ)
  is_left : Option (Option Bool)
  is_right : Option (Option Bool)
  is_center : Option (Option Bool)
  is_blinking : Option (Option Bool)
  frame_processed : Bool
  attention_score : Option ℝ
  error : Option String

/-- The dictionary built by `process_frame`'s `except` branch
(gaze_service.py lines 119-125): only `error`, `frame_processed` and
`timestamp` keys. -/
def errorResult (e : String) (t : ℝ) : GazeResultDict :=
  { timestamp := t
    pupil_left := none
    pupil_right := none
    horizontal_ratio := none
    vertical_ratio := none
    is_left := none
    is_right := none
    is_center := none
    is_blinking := none
    frame_processed := false
    attention_score := none
    error := some e }

/-- `GazeProcessor.process_frame` (gaze_service.py lines 76-125): strip the
optional data-URI prefix, run the external decode/refresh/read pipeline,
and on success build the full gaze dictionary (every key present, the
scorer applied to it); any exception is caught and becomes the error
dictionary. -/
noncomputable def process_frame (env : ExternalEnv) (frame_data : String) : GazeResultDict :=
  match env.pipeline (frameDataToDecode frame_data) with
  | Except.ok r =>
    { timestamp := env.time
      pupil_left := some r.pupil_left
      pupil_right := some r.pupil_right
      horizontal_ratio := some r.horizontal_ratio
      vertical_ratio := some r.vertical_ratio
      is_left := some r.is_left
      is_right := some r.is_right
      is_center := some r.is_center
      is_blinking := some r.is_blinking
      frame_processed := true
      attention_score := some (calculate_attention_score
        ⟨some r.is_blinking, some r.is_center, some r.horizontal_ratio, some r.vertical_ratio⟩)
      error := none }
  | Except.error e => errorResult e env.time

/-- A successfully parsed incoming JSON message, restricted to the two keys
the loop reads: `message.get("type")` and `message.get("data")` (`none` =
key absent; the protocol's data values are strings, and Python truthiness
for a string is non-emptiness). -/
structure JsonMsg where
  type : Option String
  data : Option String

/-- The outcome of `json.loads` on one received text frame: a parsed
message, or an exception with text `e`. -/
inductive ParseResult where
  | ok (m : JsonMsg)
  | parseError (e : String)

/-- A message the server sends back over the websocket. -/
inductive Response where
  | gaze_data (d : GazeResultDict)
  | pong

/-- What one pass through the loop body's dispatch does: finish normally
having sent zero or one response, or let an exception escape the loop. -/
inductive DispatchOutcome where
  | sent (r : Option Response)
  | raised (e : String)

/-- The message-type tag for frames. -/
def typeFrame : String := "frame"

/-- The message-type tag for pings. -/
def typePing : String := "ping"

/-- The dispatch on one received message inside `websocket_endpoint`'s
`while True` loop (gaze_service.py lines 176-188), parameterised by the
frame processor `pf` (the source calls the global
`gaze_processor.process_frame`) so that use of the estimator is visible in
the dependence on `pf`.  A `json.loads` failure is an exception that the
loop body does not catch. -/
def dispatch (pf : String → GazeResultDict) : ParseResult → DispatchOutcome
  | ParseResult.parseError e => DispatchOutcome.raised e
  | ParseResult.ok m =>
    if m.type = some typeFrame then
      match m.data with
      | some frame_data =>
        if frame_data = "" then DispatchOutcome.sent none
        else DispatchOutcome.sent (some (Response.gaze_data (pf frame_data)))
      | none => DispatchOutcome.sent none
    else if m.type = some typePing then
      DispatchOutcome.sent (some Response.pong)
    else
      DispatchOutcome.sent none

/-- The fate of the connection after one message: the loop continues (with
the response the body sent, if any), or an exception escaped the loop, was
caught by the endpoint's outer `except Exception` handler, and the endpoint
closed the websocket (gaze_service.py lines 190-194) without sending
anything further. -/
inductive StepResult where
  | cont (sent : Option Response)
  | closed

/-- One iteration of `websocket_endpoint`'s receive loop on a parsed
message, with the external world in state `env`. -/
noncomputable def websocket_step (env : ExternalEnv) (p : ParseResult) : StepResult :=
  match dispatch (process_frame env) p with
  | DispatchOutcome.sent r => StepResult.cont r
  | DispatchOutcome.raised _ => StepResult.closed

/-- Running the receive loop over a queue of incoming messages, each paired
with the state of the external world at the moment it is processed: returns
the list of responses sent, and whether the loop was ended by the exception
handler closing the connection (`false` = every message was consumed and
the connection is still open). -/
noncomputable def run_loop : List (ExternalEnv × ParseResult) → List Response × Bool
  | [] => ([], false)
  | (env, p) :: rest =>
    match websocket_step env p with
    | StepResult.cont r => (r.toList ++ (run_loop rest).1, (run_loop rest).2)
    | StepResult.closed => ([], true)

theorem pySplit_ne_nil (sep : Char) (l : List Char) : pySplit sep l ≠ [] := by
  cases l with
  | nil => simp [pySplit]
  | cons c cs =>
    simp only [pySplit]
    cases h : pySplit sep cs with
    | nil => simp
    | cons t ts =>
      by_cases hc : c = sep <;> simp [hc]

/-- A separator-free string is a single field. -/
theorem pySplit_of_not_mem (sep : Char) (l : List Char) (h : sep ∉ l) :
    pySplit sep l = [l] := by
  induction l with
  | nil => rfl
  | cons c cs ih =>
    have hc : c ≠ sep := fun hc => h (hc ▸ List.mem_cons_self c cs)
    have hcs : sep ∉ cs := fun hm => h (List.mem_cons_of_mem c hm)
    simp [pySplit, ih hcs, hc]

/-- Splitting at the first separator: the separator-free prefix becomes the
first field and the rest is split recursively. -/
theorem pySplit_append (sep : Char) (a r : List Char) (ha : sep ∉ a) :
    pySplit sep (a ++ sep :: r) = a :: pySplit sep r := by
  induction a with
  | nil =>
    simp only [List.nil_append, pySplit]
    cases h : pySplit sep r with
    | nil => exact absurd h (pySplit_ne_nil sep r)
    | cons t ts => simp
  | cons c a ih =>
    have hc : c ≠ sep := fun hc => ha (hc ▸ List.mem_cons_self c a)
    have ha2 : sep ∉ a := fun hm => ha (List.mem_cons_of_mem c hm)
    show pySplit sep (c :: (a ++ sep :: r)) = (c :: a) :: pySplit sep r
    rw [pySplit, ih ha2]
    simp [hc]

theorem pyTruthy_some (b : Option Bool) : pyTruthy (some b) = (b == some true) := by
  rcases b with _ | b
  · rfl
  · cases b <;> rfl

/-- C1: on inputs where all four keys are present (as in every dictionary
the service builds), the scorer implements the spec's priority-ordered
policy with the first matching rule winning: blinking yields 0.3, else a
centred gaze yields 1.0, else a null ratio yields 0.5, else the rounded
`max(0, 1 - 2*d)` for `d` the Euclidean distance to `(0.5, 0.5)`. -/
theorem calculate_attention_score_eq_policy (bb bc : Option Bool) (hr vr : Option ℝ) :
    calculate_attention_score ⟨some bb, some bc, some hr, some vr⟩
      = attentionPolicySpec (bb == some true) (bc == some true) hr vr := by
  simp only [calculate_attention_score, attentionPolicySpec, pyTruthy_some,
    ratioOrDefault, Option.getD_some]
  split_ifs with h1 h2
  · rfl
  · rfl
  · rcases hr with _ | h <;> rcases vr with _ | v
    · rfl
    · rfl
    · rfl
    · simp [mul_comm]

theorem round2_nonneg {x : ℝ} (hx : 0 ≤ x) : 0 ≤ round2 x := by
  unfold round2
  have h0 : (0 : ℤ) ≤ round (x * 100) := by
    rw [round_eq, Int.le_floor]
    push_cast
    nlinarith
  have h1 : (0 : ℝ) ≤ ((round (x * 100) : ℤ) : ℝ) := by exact_mod_cast h0
  exact div_nonneg h1 (by norm_num)

theorem round2_le_one {x : ℝ} (hx : x ≤ 1) : round2 x ≤ 1 := by
  unfold round2
  have h0 : round (x * 100) ≤ (100 : ℤ) := by
    rw [round_eq]
    have hlt : ⌊x * 100 + 1 / 2⌋ < (101 : ℤ) := by
      rw [Int.floor_lt]
      push_cast
      nlinarith
    omega
  have h1 : ((round (x * 100) : ℤ) : ℝ) ≤ 100 := by exact_mod_cast h0
  rw [div_le_one (by norm_num)]
  exact h1

/-- C8: the attention score always lies in the closed interval `[0, 1]`. -/
theorem calculate_attention_score_mem_Icc (gaze_data : GazeInput) :
    calculate_attention_score gaze_data ∈ Set.Icc (0 : ℝ) 1 := by
  unfold calculate_attention_score
  split_ifs with h1 h2
  · constructor <;> norm_num
  · constructor <;> norm_num
  · rcases hh : ratioOrDefault gaze_data.horizontal_ratio with _ | h <;>
      rcases hv : ratioOrDefault gaze_data.vertical_ratio with _ | v <;>
      simp only
    · constructor <;> norm_num
    · constructor <;> norm_num
    · constructor <;> norm_num
    · have hd : 0 ≤ Real.sqrt ((h - 0.5) ^ 2 + (v - 0.5) ^ 2) := Real.sqrt_nonneg _
      have hlo : (0 : ℝ) ≤ max 0.0 (1.0 - Real.sqrt ((h - 0.5) ^ 2 + (v - 0.5) ^ 2) * 2) :=
        le_trans (by norm_num) (le_max_left 0.0 _)
      have hhi : max 0.0 (1.0 - Real.sqrt ((h - 0.5) ^ 2 + (v - 0.5) ^ 2) * 2) ≤ (1 : ℝ) := by
        apply max_le <;> nlinarith
      exact ⟨round2_nonneg hlo, round2_le_one hhi⟩

/-- C10: when the ratio keys are absent from the dictionary entirely (and
neither `is_blinking` nor `is_center` is truthy), the scorer defaults both
ratios to `0.5` and returns `1.0` — unlike the `0.5` it returns when the
keys are present but hold `None`. -/
theorem calculate_attention_score_absent_ratio_keys (bb bc : Option (Option Bool))
    (hb : pyTruthy bb = false) (hc : pyTruthy bc = false) :
    calculate_attention_score ⟨bb, bc, none, none⟩ = 1.0 ∧
    calculate_attention_score ⟨bb, bc, some none, some none⟩ = 0.5 := by
  constructor
  · unfold calculate_attention_score
    rw [hb, hc]
    simp only [Bool.false_eq_true, if_false, ratioOrDefault, Option.getD_none]
    have hs : Real.sqrt (((0.5 : ℝ) - 0.5) ^ 2 + ((0.5 : ℝ) - 0.5) ^ 2) = 0 := by
      norm_num
    rw [hs]
    unfold round2
    norm_num
  · unfold calculate_attention_score
    rw [hb, hc]
    simp [ratioOrDefault]

/-- Witness for `calculate_attention_score_absent_ratio_keys`, at a
dictionary lacking all four keys (resp. with present-but-`None` ratios). -/
theorem calculate_attention_score_absent_ratio_keys_witness :
    calculate_attention_score ⟨none, none, none, none⟩ = 1.0 ∧
    calculate_attention_score ⟨none, none, some none, some none⟩ = 0.5 :=
  calculate_attention_score_absent_ratio_keys none none rfl rfl

/-- C2 counterexample: on a payload with two commas the decoder does NOT
keep all of the remainder after the first comma.  On the payload
`a,b,c` the code (`split(',')[1]`) yields `b`, while the claim demands
`b,c`. -/
theorem frameDataToDecode_counterexample :
    frameDataToDecode ⟨['a', ',', 'b', ',', 'c']⟩ = ⟨['b']⟩ ∧
    frameDataToDecode ⟨['a', ',', 'b', ',', 'c']⟩ ≠ ⟨['b', ',', 'c']⟩ := by
  constructor
  · rfl
  · decide

/-- C2 amended: a payload with no comma is passed to the base64 decoder
unchanged; a payload with exactly one comma loses the comma and everything
before it; a payload with two or more commas keeps only the content
strictly between the first and the second comma (the second
comma-separated field). -/
theorem frameDataToDecode_amended :
    (∀ s : List Char, ',' ∉ s → frameDataToDecode ⟨s⟩ = ⟨s⟩) ∧
    (∀ a b : List Char, ',' ∉ a → ',' ∉ b → frameDataToDecode ⟨a ++ ',' :: b⟩ = ⟨b⟩) ∧
    (∀ a b c : List Char, ',' ∉ a → ',' ∉ b →
      frameDataToDecode ⟨a ++ ',' :: (b ++ ',' :: c)⟩ = ⟨b⟩) := by
  refine ⟨fun s hs => ?_, fun a b ha hb => ?_, fun a b c ha hb => ?_⟩
  · unfold frameDataToDecode stripDataUri
    simp [hs]
  · unfold frameDataToDecode stripDataUri
    have hm : ',' ∈ a ++ ',' :: b := List.mem_append_right a (List.mem_cons_self _ _)
    rw [if_pos hm, pySplit_append ',' a b ha, pySplit_of_not_mem ',' b hb]
    rfl
  · unfold frameDataToDecode stripDataUri
    have hm : ',' ∈ a ++ ',' :: (b ++ ',' :: c) :=
      List.mem_append_right a (List.mem_cons_self _ _)
    rw [if_pos hm, pySplit_append ',' a (b ++ ',' :: c) ha, pySplit_append ',' b c hb]
    rfl

/-- Witness for `frameDataToDecode_amended`: the single-comma part applied
to the payload `d,xy`. -/
theorem frameDataToDecode_amended_witness :
    frameDataToDecode ⟨['d', ',', 'x', 'y']⟩ = ⟨['x', 'y']⟩ :=
  frameDataToDecode_amended.2.1 ['d'] ['x', 'y'] (by decide) (by decide)

/-- C3: every dictionary produced by `process_frame` satisfies the record
invariant: when `frame_processed` is false the `error` key is set and all
gaze keys (pupils, ratios, direction and blink flags, attention score) are
absent, and when `frame_processed` is true the `error` key is absent. -/
theorem process_frame_invariant (env : ExternalEnv) (frame_data : String) :
    ((process_frame env frame_data).frame_processed = false →
      (process_frame env frame_data).error.isSome = true ∧
      (process_frame env frame_data).pupil_left = none ∧
      (process_frame env frame_data).pupil_right = none ∧
      (process_frame env frame_data).horizontal_ratio = none ∧
      (process_frame env frame_data).vertical_ratio = none ∧
      (process_frame env frame_data).is_left = none ∧
      (process_frame env frame_data).is_right = none ∧
      (process_frame env frame_data).is_center = none ∧
      (process_frame env frame_data).is_blinking = none ∧
      (process_frame env frame_data).attention_score = none) ∧
    ((process_frame env frame_data).frame_processed = true →
      (process_frame env frame_data).error = none) := by
  unfold process_frame
  cases env.pipeline (frameDataToDecode frame_data) with
  | ok r => exact ⟨fun h => (nomatch h), fun _ => rfl⟩
  | error e =>
    exact ⟨fun _ => ⟨rfl, rfl, rfl, rfl, rfl, rfl, rfl, rfl, rfl, rfl⟩, fun h => (nomatch h)⟩

/-- Witness for `process_frame_invariant`: a pipeline that raises on every
payload, and one that succeeds with all accessors returning `None`. -/
theorem process_frame_invariant_witness :
    (process_frame ⟨fun _ => Except.error ("boom"), 0⟩ ⟨['x']⟩).error.isSome = true ∧
    (process_frame
        ⟨fun _ => Except.ok ⟨none, none, none, none, none, none, none, none⟩, 0⟩
        ⟨['x']⟩).error = none :=
  ⟨((process_frame_invariant ⟨fun _ => Except.error ("boom"), 0⟩ ⟨['x']⟩).1 rfl).1,
   (process_frame_invariant
      ⟨fun _ => Except.ok ⟨none, none, none, none, none, none, none, none⟩, 0⟩
      ⟨['x']⟩).2 rfl⟩

/-- C4: when processing a frame raises an exception (any failing step of
the external pipeline, e.g. an invalid-base64 payload), the exception is
caught and answered with a `gaze_data` response carrying the error
dictionary (`frame_processed = false`, `error` = the exception text, and a
timestamp), and the receive loop carries on with the remaining messages on
the still-open connection. -/
theorem frame_exception_recovered (env : ExternalEnv) (e frame_data : String)
    (rest : List (ExternalEnv × ParseResult))
    (hp : env.pipeline (frameDataToDecode frame_data) = Except.error e)
    (hd : frame_data ≠ "") :
    run_loop ((env, ParseResult.ok ⟨some typeFrame, some frame_data⟩) :: rest)
      = (Response.gaze_data (errorResult e env.time) :: (run_loop rest).1,
         (run_loop rest).2) := by
  have hpf : process_frame env frame_data = errorResult e env.time := by
    unfold process_frame
    rw [hp]
  simp [run_loop, websocket_step, dispatch, hpf, hd]

/-- Witness for `frame_exception_recovered`: a one-message queue whose
pipeline raises; the loop answers with the error dictionary and ends with
the connection still open (`false`). -/
theorem frame_exception_recovered_witness :
    run_loop [(⟨fun _ => Except.error ("bad frame"), 0⟩,
               ParseResult.ok ⟨some typeFrame, some (String.singleton 'x')⟩)]
      = ([Response.gaze_data (errorResult ("bad frame") 0)], false) := by
  have h := frame_exception_recovered ⟨fun _ => Except.error ("bad frame"), 0⟩
    ("bad frame") (String.singleton 'x') [] rfl (by decide)
  simpa [run_loop] using h

/-- C5: a message that is not valid JSON makes `json.loads` raise inside
the loop body, where nothing catches it: no response (and no error report)
is sent, no later message is processed, and the connection is closed. -/
theorem parse_failure_closes (env : ExternalEnv) (e : String)
    (rest : List (ExternalEnv × ParseResult)) :
    run_loop ((env, ParseResult.parseError e) :: rest) = ([], true) := by
  simp [run_loop, websocket_step, dispatch]

/-- C6: a ping message is answered with exactly a pong; the frame processor
(and with it the estimator pipeline) is never consulted — the dispatch
result is the same for every processor, and the loop continues. -/
theorem ping_answered_with_pong (pf pf2 : String → GazeResultDict)
    (env : ExternalEnv) (d : Option String) :
    dispatch pf (ParseResult.ok ⟨some typePing, d⟩)
        = DispatchOutcome.sent (some Response.pong) ∧
    dispatch pf (ParseResult.ok ⟨some typePing, d⟩)
        = dispatch pf2 (ParseResult.ok ⟨some typePing, d⟩) ∧
    websocket_step env (ParseResult.ok ⟨some typePing, d⟩)
        = StepResult.cont (some Response.pong) := by
  have hne : (typePing = typeFrame) = False := by
    simp only [eq_iff_iff, iff_false]
    decide
  refine ⟨?_, ?_, ?_⟩ <;>
    simp [dispatch, websocket_step, hne]

/-- C7: a message whose type is neither a frame nor a ping (a missing type
key included), and a frame message whose data key is absent or empty, get
no response and no error report, and the loop continues on the open
connection. -/
theorem unknown_or_dataless_silently_ignored (env : ExternalEnv) (m : JsonMsg)
    (rest : List (ExternalEnv × ParseResult))
    (h : (m.type ≠ some typeFrame ∧ m.type ≠ some typePing) ∨
         (m.type = some typeFrame ∧ (m.data = none ∨ m.data = some ""))) :
    websocket_step env (ParseResult.ok m) = StepResult.cont none ∧
    run_loop ((env, ParseResult.ok m) :: rest) = run_loop rest := by
  have hstep : websocket_step env (ParseResult.ok m) = StepResult.cont none := by
    unfold websocket_step
    rcases h with ⟨h1, h2⟩ | ⟨h1, h2⟩
    · simp [dispatch, h1, h2]
    · rcases h2 with h2 | h2 <;> simp [dispatch, h1, h2]
  refine ⟨hstep, ?_⟩
  simp [run_loop, hstep]

/-- Witness for `unknown_or_dataless_silently_ignored`: a message of the
unrecognised type `frameping` followed by a dataless frame; neither elicits
a response and the loop survives both. -/
theorem unknown_or_dataless_silently_ignored_witness :
    run_loop [(⟨fun _ => Except.error (""), 0⟩,
               ParseResult.ok ⟨some (String.append typeFrame typePing), none⟩)]
      = run_loop [] ∧
    websocket_step ⟨fun _ => Except.error (""), 0⟩
        (ParseResult.ok ⟨some typeFrame, none⟩) = StepResult.cont none :=
  ⟨(unknown_or_dataless_silently_ignored ⟨fun _ => Except.error (""), 0⟩
      ⟨some (String.append typeFrame typePing), none⟩ []
      (Or.inl ⟨by decide, by decide⟩)).2,
   (unknown_or_dataless_silently_ignored ⟨fun _ => Except.error (""), 0⟩
      ⟨some typeFrame, none⟩ []
      (Or.inr ⟨rfl, Or.inl rfl⟩)).1⟩

end GazeService
